import Mathlib

/-!
Shallow embedding of `dwc_quick_check.py` (Darwin Core quick-check script).

The script loads three CSV tables (event, occurrence, emof) into pandas
DataFrames, asserts key consistency, merges them with one-to-many
validation, and runs a series of validation checks (required columns,
null values, coordinate ranges, depth logic, WoRMS taxonomy lookup).

Modelling decisions:
  * A cell value is `Value`: a rational number (pandas numeric), a string
    (pandas object cell), or null (pandas NaN / missing).
  * A row is an association list from column name to value; a table carries
    an explicit column list (pandas `df.columns`) plus its rows.
  * `pd.to_numeric(col, errors="coerce")` is `Value.toNumeric`: numbers map
    to themselves, strings are parsed as (signed) decimal literals, null
    and unparseable strings map to `none` (NaN).
  * pandas raw comparison `df[col] < c` on a column holding strings raises
    `TypeError` (object-dtype comparison of `str` with a number); validators
    that perform raw comparisons are therefore `Except PyErr` valued.
  * Each `print` diagnostic of the script is modelled as a `Finding` record;
    the `code` field is an identifier for the print site, `severity` is the
    literal "CRITICAL"/"WARNING" tag when the print includes one, and
    `locs` is the `index.tolist()` payload when the print includes one.
  * A raised-and-uncaught python exception is a `RunOutcome.crashed` with
    the exception class and the findings printed before the crash.
-/

/-- A pandas cell value: numeric, string, or NaN/missing. -/
inductive Value where
  | num (q : Rat)
  | str (s : String)
  | null
deriving DecidableEq

/-- A record: association list from column name to cell value. -/
abbrev Row := List (String × Value)

/-- A DataFrame: explicit column list plus rows. -/
structure Table where
  cols : List String
  rows : List Row
deriving DecidableEq

/-- Value of column `k` in row `r` (first binding wins, as in a DataFrame
where each column occurs once). -/
def keyVal (r : Row) (k : String) : Option Value :=
  match r with
  | [] => none
  | (a, v) :: rest => if a = k then some v else keyVal rest k

/-- The list of key values of column `k` across rows `L` (pandas `df[k]`
restricted to what the key-based logic of the script observes). -/
def keysOf (L : List Row) (k : String) : List (Option Value) :=
  L.map (fun r => keyVal r k)

/-- Column `c` of a table as pandas sees it: one value per row, NaN when
the row has no binding for `c`. -/
def getCol (t : Table) (c : String) : List Value :=
  t.rows.map (fun r => (keyVal r c).getD Value.null)

/-- True for string-valued cells (pandas object-dtype entries that are
`str`, which raw numeric comparisons reject with `TypeError`). -/
def Value.isStr : Value → Bool
  | .str _ => true
  | _ => false

/-- True for NaN/missing cells. -/
def Value.isNull : Value → Bool
  | .null => true
  | _ => false

/-- Fold a digit list into a natural number. -/
def digitsToNat (cs : List Char) : Nat :=
  cs.foldl (fun n c => 10 * n + (c.toNat - 48)) 0

/-- Split a character list on a separator character. -/
def splitOnChar (sep : Char) : List Char → List (List Char)
  | [] => [[]]
  | c :: rest =>
    if c = sep then [] :: splitOnChar sep rest
    else
      match splitOnChar sep rest with
      | h :: t => (c :: h) :: t
      | [] => [[c]]

/-- Parse an unsigned decimal literal ("12", "3.5") as a rational. -/
def parseUnsignedChars (cs : List Char) : Option Rat :=
  match splitOnChar '.' cs with
  | [a] =>
    if a.length > 0 ∧ a.all Char.isDigit then
      some (digitsToNat a : Rat)
    else none
  | [a, b] =>
    if a.length > 0 ∧ b.length > 0 ∧ a.all Char.isDigit ∧ b.all Char.isDigit then
      some ((digitsToNat a : Rat) + (digitsToNat b : Rat) / ((10 : Rat) ^ b.length))
    else none
  | _ => none

/-- Parse a signed decimal literal as a rational (model of the numeric
strings `pd.to_numeric` accepts; exotic forms such as exponents are out of
scope of the claims). -/
def parseDecimal (s : String) : Option Rat :=
  match s.toList with
  | '-' :: rest => (parseUnsignedChars rest).map (fun q => -q)
  | cs => parseUnsignedChars cs

/-- Model of `pd.to_numeric(v, errors="coerce")`: numbers stay, numeric strings
parse, everything else (including NaN) coerces to NaN (`none`). -/
def Value.toNumeric : Value → Option Rat
  | .num q => some q
  | .str s => parseDecimal s
  | .null => none

/-- Render a value into diagnostic text (used inside printed messages). -/
def Value.render : Value → String
  | .num q => toString q
  | .str s => s
  | .null => "nan"

/-- One printed diagnostic of the script. `code` identifies the print
site, `severity` is the printed "CRITICAL"/"WARNING" tag when present,
`locs` is the printed `index.tolist()` when present. -/
structure Finding where
  code : String
  severity : Option String
  msg : String
  locs : List Nat
deriving DecidableEq

/-- The class of an uncaught python exception. -/
inductive PyErr where
  | keyError
  | assertionError
  | nameError
  | attributeError
  | typeError
deriving DecidableEq

/-! ## Required-column check (`test_required_columns`) -/

/-- The `required_emof_terms` list of the script. -/
def required_emof_terms : List String :=
  ["eventID", "occurrenceID", "measurementValue", "measurementType", "measurementUnit"]

/-- The `required_event_terms` list of the script. -/
def required_event_terms : List String :=
  ["eventID", "eventDate", "decimalLatitude", "decimalLongitude", "countryCode",
   "geodeticDatum"]

/-- First-occurrence deduplication, keeping elements not yet `seen`. -/
def uniqFirstAux {α : Type} [DecidableEq α] (seen : List α) : List α → List α
  | [] => []
  | a :: l => if a ∈ seen then uniqFirstAux seen l else a :: uniqFirstAux (a :: seen) l

/-- First-occurrence deduplication (order model for the python
`set(...)` built from the concatenated lists and for pandas `unique()`;
python set iteration order is not specified, and no property below
depends on the order). -/
def uniqFirst {α : Type} [DecidableEq α] (l : List α) : List α :=
  uniqFirstAux [] l

/-- The script line `required_terms = set(required_event_terms + required_emof_terms)`. -/
def required_terms : List String :=
  uniqFirst (required_event_terms ++ required_emof_terms)

/-- The script line `missing_cols = [col for col in required_terms if col not in df.columns]`. -/
def missingCols (df : Table) : List String :=
  required_terms.filter (fun c => decide (c ∉ df.cols))

/-- Model of `test_required_columns`: list the required columns absent from the
table; when any are missing, print one message naming all of them. -/
def test_required_columns (df : Table) : List Finding :=
  if missingCols df = [] then []
  else
    [{ code := "missing_columns", severity := none,
       msg := "Missing required DwC columns: " ++ String.intercalate ", " (missingCols df),
       locs := [] }]

/-! ## Null-value check (`test_null_values`) -/

/-- Model of `test_null_values`: per required column present in the table, warn when
it has missing values, listing the offending row indices. -/
def test_null_values (df : Table) : List Finding :=
  required_terms.flatMap (fun c =>
    if c ∈ df.cols then
      let idx := (List.range df.rows.length).filter
        (fun i => ((getCol df c).getD i Value.null).isNull)
      if idx = [] then []
      else
        [{ code := "null_values", severity := some "WARNING",
           msg := "Column " ++ c ++ " has " ++ toString idx.length ++ " missing values.",
           locs := idx }]
    else [])

/-! ## Coordinate check (`validate_coordinates`) -/

/-- Raw pandas comparison `v < c` for numeric/NaN cells: NaN comparisons
are `False`; string cells never reach this (they raise `TypeError` first,
see `checkCoordColumn`). -/
def rawLt (v : Value) (c : Rat) : Bool :=
  match v with
  | .num q => decide (q < c)
  | _ => false

/-- Raw pandas comparison `v > c` (NaN gives `False`). -/
def rawGt (v : Value) (c : Rat) : Bool :=
  match v with
  | .num q => decide (q > c)
  | _ => false

/-- The boolean mask of the script for one coordinate column:
`pd.to_numeric(col).isna() | (col < -b) | (col > b)`. -/
def coordMask (v : Value) (b : Rat) : Bool :=
  v.toNumeric.isNone || rawLt v (-b) || rawGt v b

/-- The masked row indices of one coordinate column. -/
def coordBadIdx (df : Table) (c : String) (b : Rat) : List Nat :=
  (List.range (getCol df c).length).filter
    (fun i => coordMask ((getCol df c).getD i Value.null) b)

/-- One coordinate column of `validate_coordinates`: skipped when absent;
`TypeError` when the column holds strings (pandas object-dtype comparison
with a number raises); otherwise one CRITICAL finding listing the masked
indices when any. -/
def checkCoordColumn (df : Table) (c : String) (b : Rat) (code msg : String) :
    Except PyErr (List Finding) :=
  if c ∈ df.cols then
    if (getCol df c).any Value.isStr then .error .typeError
    else if coordBadIdx df c b = [] then .ok []
    else .ok [{ code := code, severity := some "CRITICAL", msg := msg,
                locs := coordBadIdx df c b }]
  else .ok []

/-- Model of `validate_coordinates`: latitude column then longitude column. -/
def validate_coordinates (df : Table) : Except PyErr (List Finding) :=
  match checkCoordColumn df "decimalLatitude" 90
      "invalid_latitude" "Invalid decimalLatitude values detected." with
  | .error e => .error e
  | .ok f1 =>
    match checkCoordColumn df "decimalLongitude" 180
        "invalid_longitude" "Invalid decimalLongitude values detected." with
    | .error e => .error e
    | .ok f2 => .ok (f1 ++ f2)

/-- The row indices the latitude finding of `validate_coordinates` lists
(empty when there is no latitude finding or the check raised). -/
def latLocs (df : Table) : List Nat :=
  match validate_coordinates df with
  | .ok fs => (fs.filter (fun f => decide (f.code = "invalid_latitude"))).flatMap Finding.locs
  | .error _ => []

/-! ## Depth check (`depth_consistency_checks`) -/

/-- Coerced pandas comparison `a > b` on `to_numeric` results: any NaN
side gives `False`. -/
def optGT (a b : Option Rat) : Bool :=
  match a, b with
  | some x, some y => decide (x > y)
  | _, _ => false

/-- Indices of the mask `(min_d > max_d) & min_d.notna() & max_d.notna()`
over the coerced depth columns. -/
def illogicalIdx (df : Table) : List Nat :=
  let minv := (getCol df "minimumDepthInMeters").map Value.toNumeric
  let maxv := (getCol df "maximumDepthInMeters").map Value.toNumeric
  (List.range df.rows.length).filter (fun i =>
    optGT (minv.getD i none) (maxv.getD i none)
      && (minv.getD i none).isSome && (maxv.getD i none).isSome)

/-- Indices with a non-numeric (coerce-to-NaN) minimum depth. -/
def nonNumericMinIdx (df : Table) : List Nat :=
  (List.range df.rows.length).filter
    (fun i => (((getCol df "minimumDepthInMeters").map Value.toNumeric).getD i none).isNone)

/-- Model of `depth_consistency_checks`: warn when both depth columns are absent;
warn on non-numeric minimum values; CRITICAL when a coerced minimum
exceeds the coerced maximum. -/
def depth_consistency_checks (df : Table) : List Finding :=
  (if ¬ "minimumDepthInMeters" ∈ df.cols ∧ ¬ "maximumDepthInMeters" ∈ df.cols then
    [{ code := "depth_missing", severity := some "WARNING",
       msg := "No depth information found (minimumDepthInMeters/maximumDepthInMeters).",
       locs := [] }]
   else []) ++
  (if "minimumDepthInMeters" ∈ df.cols then
    (if nonNumericMinIdx df = [] then []
     else
       [{ code := "non_numeric_min_depth", severity := some "WARNING",
          msg := "Non-numeric values in minimumDepthInMeters",
          locs := nonNumericMinIdx df }])
   else []) ++
  (if "minimumDepthInMeters" ∈ df.cols ∧ "maximumDepthInMeters" ∈ df.cols then
    (if illogicalIdx df = [] then []
     else
       [{ code := "depth_illogical", severity := some "CRITICAL",
          msg := "minimumDepthInMeters is greater than maximumDepthInMeters",
          locs := illogicalIdx df }])
   else [])

/-- The row indices the illogical-depth finding lists (empty when there is
no such finding). -/
def depthIllogicalLocs (df : Table) : List Nat :=
  (depth_consistency_checks df |>.filter
    (fun f => decide (f.code = "depth_illogical"))).flatMap Finding.locs

/-! ## Taxonomy check (`validate_scientific_names`) -/

/-- One candidate match returned by the WoRMS name-matching service. -/
structure WMatch where
  status : String
  valid_name : String
  url : String
deriving DecidableEq

/-- The outcome of `requests.get` on one chunk: a 200 response with the
per-name match lists, a non-200 status code, or a raised connection
error (the `except` branch of the script). -/
inductive ServiceResponse where
  | ok (results : List (List WMatch))
  | httpError (code : Nat)
  | connError
deriving DecidableEq

/-- Whether a response is a 200 response. -/
def ServiceResponse.isOk : ServiceResponse → Bool
  | .ok _ => true
  | _ => false

/-- Chunking loop with explicit fuel (each step consumes at least one
element, so `l.length` fuel always suffices). -/
def chunksGo : Nat → List Value → List (List Value)
  | 0, _ => []
  | _, [] => []
  | fuel + 1, a :: l => ((a :: l).take 50) :: chunksGo fuel ((a :: l).drop 50)

/-- Split a name list into chunks of 50
(`for i in range(0, len(unique_names), chunk_size)`). -/
def chunksOf50 (l : List Value) : List (List Value) :=
  chunksGo l.length l

/-- Per (queried name, returned match list): an empty match list marks the
name unmatched; otherwise the first (best) match is checked for status
"accepted", warning when it is anything else. -/
def processPair (name : Value) (ms : List WMatch) : List Finding × List Value :=
  match ms with
  | [] => ([], [name])
  | m :: _ =>
    if m.status ≠ "accepted" then
      ([{ code := "taxon_unaccepted", severity := some "WARNING",
          msg := "Taxon " ++ name.render ++ " is " ++ m.status ++ ". Accepted name: "
            ++ m.valid_name ++ ", " ++ m.url,
          locs := [] }], [])
    else ([], [])

/-- One iteration of the chunk loop: a 200 response is zipped with the
chunk and processed per name; a non-200 response prints one API-error
warning (names are not classified); a connection error prints one error
message (names are not classified). -/
def processChunk (chunk : List Value) (resp : ServiceResponse) :
    List Finding × List Value :=
  match resp with
  | .ok results =>
    let pairs := chunk.zip results
    (pairs.flatMap (fun p => (processPair p.1 p.2).1),
     pairs.flatMap (fun p => (processPair p.1 p.2).2))
  | .httpError c =>
    ([{ code := "worms_api_error", severity := some "WARNING",
        msg := "WoRMS API Error: " ++ toString c, locs := [] }], [])
  | .connError =>
    ([{ code := "worms_conn_error", severity := none,
        msg := "Error connecting to WoRMS", locs := [] }], [])

/-- The chunk loop: per chunk, exactly one request is issued to the
service; findings and unmatched names accumulate in order. Returns
(findings, unmatched names, requests issued). -/
def chunkLoop (chunks : List (List Value)) (svc : List Value → ServiceResponse) :
    List Finding × List Value × List (List Value) :=
  match chunks with
  | [] => ([], [], [])
  | c :: rest =>
    let step := processChunk c (svc c)
    let tail := chunkLoop rest svc
    (step.1 ++ tail.1, step.2 ++ tail.2.1, c :: tail.2.2)

/-- The script line `df["scientificName"].dropna().unique().tolist()`. -/
def uniqueNamesOf (df : Table) : List Value :=
  uniqFirst ((getCol df "scientificName").filter (fun v => ¬ v.isNull))

/-- Model of `validate_scientific_names`: `KeyError` when the column is missing
(the script prints "Missing scientificName." and then indexes the absent
column anyway); otherwise run the chunk loop and, when any names ended
unmatched, print one warning listing the first 10 of them suffixed "...".
Returns the findings plus the trace of requests issued. -/
def validate_scientific_names (df : Table) (svc : List Value → ServiceResponse) :
    Except (PyErr × List Finding) (List Finding × List (List Value)) :=
  if "scientificName" ∈ df.cols then
    let names := uniqueNamesOf df
    let loop := chunkLoop (chunksOf50 names) svc
    let tail : List Finding :=
      if loop.2.1 = [] then []
      else
        [{ code := "taxon_unmatched", severity := some "WARNING",
           msg := "Taxa not found in WoRMS: "
             ++ String.intercalate ", " ((loop.2.1.take 10).map Value.render) ++ "...",
           locs := [] }]
    .ok (loop.1 ++ tail, loop.2.2)
  else
    .error (.keyError,
      [{ code := "missing_scientificName", severity := none,
         msg := "Missing scientificName.", locs := [] }])

/-- The findings `validate_scientific_names` prints (including those
printed before a crash). -/
def vsnFindings (df : Table) (svc : List Value → ServiceResponse) : List Finding :=
  match validate_scientific_names df svc with
  | .ok (fs, _) => fs
  | .error (_, fs) => fs

/-- The network requests `validate_scientific_names` issues. -/
def vsnRequests (df : Table) (svc : List Value → ServiceResponse) : List (List Value) :=
  match validate_scientific_names df svc with
  | .ok (_, rs) => rs
  | .error _ => []

/-- The unmatched-name accumulator of the run. -/
def unmatchedOf (df : Table) (svc : List Value → ServiceResponse) : List Value :=
  (chunkLoop (chunksOf50 (uniqueNamesOf df)) svc).2.1

/-- The script has no cache and no state between calls: invoking the
taxonomy check twice is two invocations of the same pure function. This
pairs the request traces of a first and a second invocation. -/
def lookupTwiceRequests (df : Table) (svc : List Value → ServiceResponse) :
    List (List Value) × List (List Value) :=
  (vsnRequests df svc, vsnRequests df svc)

/-! ## Merge engine (`test_merge_tables`) and the script -/

/-- Inner join of row lists on key `k`: for each left row, every right row
with an equal key value, concatenated left-then-right. -/
def mergeRows (L R : List Row) (k : String) : List Row :=
  L.flatMap (fun lr =>
    (R.filter (fun rr => decide (keyVal rr k = keyVal lr k))).map (fun rr => lr ++ rr))

/-- Inner join of tables on key `k`. Column list is the union; the script
only merges tables whose only shared column is a join key (pandas would
suffix any other shared column, a case no claim exercises). -/
def mergeTables (l r : Table) (k : String) : Table :=
  { cols := l.cols ++ r.cols.filter (fun c => decide (c ∉ l.cols)),
    rows := mergeRows l.rows r.rows k }

/-- The message `test_merge_tables` prints when pandas raises `MergeError`
for a violated `one_to_many` validation (the pandas text does not name the
offending key values). -/
def mergeFailFinding : Finding :=
  { code := "merge_error", severity := none,
    msg := "Failed Merging DataFrames: Merge keys are not unique in left dataset; not a one-to-many merge",
    locs := [] }

/-- Model of `test_merge_tables`: pandas `merge(..., validate="one_to_many")`
checks that the merge keys are unique in the left dataset; on violation
the `MergeError` is caught, a message is printed and `None` is returned. -/
def test_merge_tables (df other : Table) (k : String) : Option Table × List Finding :=
  if (keysOf df.rows k).Nodup then (some (mergeTables df other k), [])
  else (none, [mergeFailFinding])

/-- The two-join pipeline of the script (event ⋈ occurrence on eventID,
then ⋈ emof on occurrenceID), `None` as soon as a validation fails. -/
def runLink (ev oc em : Table) : Option Table :=
  match (test_merge_tables ev oc "eventID").1 with
  | none => none
  | some eo => (test_merge_tables eo em "occurrenceID").1

/-- Line 58 of the script:
`assert len(set(df_event["eventID"])) == len(df_event)`. -/
def assertEventIDsUnique (ev : Table) : Prop :=
  (keysOf ev.rows "eventID").Nodup

/-- Line 59 of the script:
`assert sorted(set(df_event["eventID"])) == sorted(set(df_occurrence["eventID"]))`
(equal value sets). -/
def assertEventIDSetsEqual (ev oc : Table) : Prop :=
  (∀ v ∈ keysOf ev.rows "eventID", v ∈ keysOf oc.rows "eventID") ∧
  (∀ v ∈ keysOf oc.rows "eventID", v ∈ keysOf ev.rows "eventID")

instance : DecidablePred assertEventIDsUnique := fun ev =>
  List.nodupDecidable (keysOf ev.rows "eventID")

instance (ev oc : Table) : Decidable (assertEventIDSetsEqual ev oc) :=
  instDecidableAnd

/-- The final run of a completed script: every validation check over the
merged table, in program order. -/
def runChecks (df : Table) (svc : List Value → ServiceResponse) :
    Except (PyErr × List Finding) (List Finding) :=
  let f1 := test_required_columns df
  let f2 := test_null_values df
  match validate_coordinates df with
  | .error e => .error (e, f1 ++ f2)
  | .ok f3 =>
    let f4 := depth_consistency_checks df
    match validate_scientific_names df svc with
    | .error (e, f5) => .error (e, f1 ++ f2 ++ f3 ++ f4 ++ f5)
    | .ok (f5, _) => .ok (f1 ++ f2 ++ f3 ++ f4 ++ f5)

/-- The outcome of one whole run of the script: either it runs to the end
with the findings it printed, or it dies on an uncaught exception, with
the findings printed before the crash. -/
inductive RunOutcome where
  | completed (findings : List Finding)
  | crashed (err : PyErr) (findings : List Finding)
deriving DecidableEq

/-- The whole script, top to bottom: column access for the asserts
(`KeyError` when `eventID` is absent), the two module-level asserts, the
two validated merges, then the check battery. When the first merge fails,
`df_event_occur_emof` is never assigned and the first check dies with
`NameError`; when the second merge fails, it is `None` and the first
check dies with `AttributeError` on `None.columns`. -/
def script (ev oc em : Table) (svc : List Value → ServiceResponse) : RunOutcome :=
  if "eventID" ∉ ev.cols then .crashed .keyError []
  else if ¬ assertEventIDsUnique ev then .crashed .assertionError []
  else if "eventID" ∉ oc.cols then .crashed .keyError []
  else if ¬ assertEventIDSetsEqual ev oc then .crashed .assertionError []
  else
    match test_merge_tables ev oc "eventID" with
    | (none, m1) => .crashed .nameError m1
    | (some eo, m1) =>
      match test_merge_tables eo em "occurrenceID" with
      | (none, m2) => .crashed .attributeError (m1 ++ m2)
      | (some deo, m2) =>
        match runChecks deo svc with
        | .error (e, fs) => .crashed e (m1 ++ m2 ++ fs)
        | .ok fs => .completed (m1 ++ m2 ++ fs)

/-- The findings a run printed, whether or not it crashed. -/
def RunOutcome.findings : RunOutcome → List Finding
  | .completed fs => fs
  | .crashed _ fs => fs

/-! ## Helper lemmas -/

theorem any_isStr_false (vals : List Value) (h : ∀ u ∈ vals, ¬ u.isStr) :
    vals.any Value.isStr = false := by
  rw [List.any_eq_false]
  intro u hu
  simpa using h u hu

theorem mem_filter_range_getD {α : Type} (vals : List α) (p : α → Bool)
    (d : α) (i : Nat) (v : α) (hv : vals[i]? = some v) :
    (i ∈ (List.range vals.length).filter (fun j => p (vals.getD j d))) ↔ p v = true := by
  rw [List.mem_filter, List.mem_range]
  have hlen : i < vals.length := (List.getElem?_eq_some_iff.mp hv).1
  have hgd : vals.getD i d = v := by
    rw [List.getD_eq_getElem?_getD, hv]
    rfl
  rw [hgd]
  exact ⟨fun h => h.2, fun h => ⟨hlen, h⟩⟩

theorem coordMask_nonstr (v : Value) (b : Rat) (h : ¬ v.isStr = true) :
    coordMask v b = true ↔ (v = .null ∨ ∃ q, v = .num q ∧ (q < -b ∨ q > b)) := by
  cases v with
  | num q =>
    simp [coordMask, Value.toNumeric, rawLt, rawGt]
  | str s => simp [Value.isStr] at h
  | null => simp [coordMask, Value.toNumeric]

theorem checkCoordColumn_eq (df : Table) (c : String) (b : Rat) (code msg : String)
    (h1 : c ∈ df.cols) (h2 : ∀ u ∈ getCol df c, ¬ u.isStr) :
    checkCoordColumn df c b code msg =
      .ok (if coordBadIdx df c b = [] then []
           else [{ code := code, severity := some "CRITICAL", msg := msg,
                   locs := coordBadIdx df c b }]) := by
  unfold checkCoordColumn
  rw [if_pos h1, any_isStr_false _ h2]
  simp only [Bool.false_eq_true, if_false]
  split <;> rfl

theorem latLocs_eq_mask (df : Table)
    (hcol : "decimalLatitude" ∈ df.cols)
    (hlat : ∀ u ∈ getCol df "decimalLatitude", ¬ u.isStr)
    (hlon : ∀ u ∈ getCol df "decimalLongitude", ¬ u.isStr) :
    latLocs df = coordBadIdx df "decimalLatitude" 90 := by
  unfold latLocs validate_coordinates
  rw [checkCoordColumn_eq df "decimalLatitude" 90 _ _ hcol hlat]
  by_cases hlc : "decimalLongitude" ∈ df.cols
  · rw [checkCoordColumn_eq df "decimalLongitude" 180 _ _ hlc hlon]
    by_cases hp : coordBadIdx df "decimalLatitude" 90 = []
    · rw [if_pos hp]
      by_cases hq : coordBadIdx df "decimalLongitude" 180 = []
      · rw [if_pos hq]
        simp [hp]
      · rw [if_neg hq]
        simp [hp]
    · rw [if_neg hp]
      by_cases hq : coordBadIdx df "decimalLongitude" 180 = []
      · rw [if_pos hq]
        simp
      · rw [if_neg hq]
        simp
  · have hnone : checkCoordColumn df "decimalLongitude" 180
        "invalid_longitude" "Invalid decimalLongitude values detected." = .ok [] := by
      unfold checkCoordColumn
      rw [if_neg hlc]
    rw [hnone]
    by_cases hp : coordBadIdx df "decimalLatitude" 90 = []
    · rw [if_pos hp]
      simp [hp]
    · rw [if_neg hp]
      simp

/-- C2 (amended): over a latitude column holding numeric/NaN cells (the
only case the raw pandas comparison does not reject with `TypeError`),
`validate_coordinates` flags row `i` iff its value is NaN or strictly
below −90 or strictly above 90. In particular the boundary values −90 and
90 are NOT flagged: the valid range of the code is the closed interval
[−90, 90], not the open one the claim states. -/
theorem c2_latitude_flagging (df : Table)
    (hcol : "decimalLatitude" ∈ df.cols)
    (hlat : ∀ u ∈ getCol df "decimalLatitude", ¬ u.isStr)
    (hlon : ∀ u ∈ getCol df "decimalLongitude", ¬ u.isStr)
    (i : Nat) (v : Value) (hv : (getCol df "decimalLatitude")[i]? = some v) :
    i ∈ latLocs df ↔ (v = .null ∨ ∃ q, v = .num q ∧ (q < -90 ∨ q > 90)) := by
  rw [latLocs_eq_mask df hcol hlat hlon]
  unfold coordBadIdx
  rw [mem_filter_range_getD (getCol df "decimalLatitude")
    (fun u => coordMask u 90) Value.null i v hv]
  have hvmem : v ∈ getCol df "decimalLatitude" := by
    obtain ⟨hlen, heq⟩ := List.getElem?_eq_some_iff.mp hv
    exact heq ▸ List.getElem_mem hlen
  exact coordMask_nonstr v 90 (hlat v hvmem)

/-- A one-row table whose decimalLatitude is exactly −90. -/
def dfLatNeg90 : Table :=
  { cols := ["decimalLatitude"], rows := [[("decimalLatitude", Value.num (-90))]] }

/-- C2 counterexample: on the boundary value −90 the claim demands a flag,
but `validate_coordinates` emits no finding at all: the row index 0 is not
flagged. -/
theorem c2_counterexample :
    getCol dfLatNeg90 "decimalLatitude" = [Value.num (-90)] ∧ latLocs dfLatNeg90 = [] := by
  refine ⟨by decide, by decide⟩

/-- A table exercising `c2_latitude_flagging`: latitude 100 at row 0. -/
def dfLat100 : Table :=
  { cols := ["decimalLatitude"], rows := [[("decimalLatitude", Value.num 100)]] }

/-- Witness for `c2_latitude_flagging` at a concrete input. -/
theorem c2_latitude_flagging_witness : 0 ∈ latLocs dfLat100 :=
  (c2_latitude_flagging dfLat100 (by decide) (by decide) (by decide) 0 (Value.num 100)
    (by decide)).mpr (Or.inr ⟨100, rfl, Or.inr (by norm_num)⟩)

theorem getD_map_toNumeric (vals : List Value) (i : Nat) (v : Value)
    (hv : vals[i]? = some v) :
    (vals.map Value.toNumeric).getD i none = v.toNumeric := by
  rw [List.getD_eq_getElem?_getD, List.getElem?_map, hv]
  rfl

theorem depthCond_iff (a b : Option Rat) :
    (optGT a b && a.isSome && b.isSome) = true ↔
      ∃ x y, a = some x ∧ b = some y ∧ x > y := by
  cases a <;> cases b <;> simp [optGT]

theorem depthIllogicalLocs_eq (df : Table)
    (hmin : "minimumDepthInMeters" ∈ df.cols)
    (hmax : "maximumDepthInMeters" ∈ df.cols) :
    depthIllogicalLocs df = illogicalIdx df := by
  unfold depthIllogicalLocs depth_consistency_checks
  by_cases hnn : nonNumericMinIdx df = [] <;> by_cases hil : illogicalIdx df = [] <;>
    simp [hmin, hmax, hnn, hil]

/-- C7 (confirmed): with both depth columns present, a record index is in
the illogical-depth finding iff both its values coerce to numbers and the
minimum strictly exceeds the maximum; any record with a non-numeric or
missing side is excluded. -/
theorem c7_depth_illogical (df : Table)
    (hmin : "minimumDepthInMeters" ∈ df.cols)
    (hmax : "maximumDepthInMeters" ∈ df.cols)
    (i : Nat) (vmin vmax : Value)
    (h1 : (getCol df "minimumDepthInMeters")[i]? = some vmin)
    (h2 : (getCol df "maximumDepthInMeters")[i]? = some vmax) :
    i ∈ depthIllogicalLocs df ↔
      ∃ a b, vmin.toNumeric = some a ∧ vmax.toNumeric = some b ∧ a > b := by
  rw [depthIllogicalLocs_eq df hmin hmax]
  unfold illogicalIdx
  rw [List.mem_filter, List.mem_range]
  have hi : i < df.rows.length := by
    have := (List.getElem?_eq_some_iff.mp h1).1
    simpa [getCol] using this
  rw [getD_map_toNumeric _ _ _ h1, getD_map_toNumeric _ _ _ h2]
  rw [depthCond_iff]
  exact ⟨fun h => h.2, fun h => ⟨hi, h⟩⟩

/-- A table with one illogical depth pair (10 > 5) at row 0, a non-numeric
side at row 1, and a consistent pair at row 2. -/
def dfDepth : Table :=
  { cols := ["minimumDepthInMeters", "maximumDepthInMeters"],
    rows := [
      [("minimumDepthInMeters", Value.num 10), ("maximumDepthInMeters", Value.num 5)],
      [("minimumDepthInMeters", Value.str "deep"), ("maximumDepthInMeters", Value.num 5)],
      [("minimumDepthInMeters", Value.num 1), ("maximumDepthInMeters", Value.num 5)]] }

/-- Witness for `c7_depth_illogical` at a concrete input: row 0 is in the
finding, and the non-numeric row 1 is not. -/
theorem c7_depth_illogical_witness :
    0 ∈ depthIllogicalLocs dfDepth ∧ ¬ 1 ∈ depthIllogicalLocs dfDepth := by
  constructor
  · exact (c7_depth_illogical dfDepth (by decide) (by decide) 0 (Value.num 10)
      (Value.num 5) (by decide) (by decide)).mpr ⟨10, 5, rfl, rfl, by norm_num⟩
  · intro hmem
    have h := (c7_depth_illogical dfDepth (by decide) (by decide) 1 (Value.str "deep")
      (Value.num 5) (by decide) (by decide)).mp hmem
    obtain ⟨a, b, ha, hb, hab⟩ := h
    have : (Value.str "deep").toNumeric = none := by decide
    rw [this] at ha
    cases ha

/-- Modelled from the spec (refinement target only): the per-table-kind
required occurrence column set the claim says the schema check compares
against. The script defines this list only inside a commented-out block
("FF: Unused") and never consults it. -/
def spec_required_occurrence_terms : List String :=
  ["occurrenceID", "scientificName", "eventDate", "decimalLatitude",
   "decimalLongitude", "basisOfRecord", "occurrenceStatus"]

/-- C8 (amended): the schema check compares every table against the single
union set `required_terms` (event ∪ emof; the occurrence-specific set is
defined but unused), and on any absence emits exactly one finding whose
single message names every missing column; it never emits one finding per
column, and the printed message carries no severity tag. -/
theorem c8_schema_check (df : Table) :
    (test_required_columns df).length ≤ 1 ∧
    (test_required_columns df = [] ↔ ∀ c ∈ required_terms, c ∈ df.cols) ∧
    (∀ f ∈ test_required_columns df,
      f.code = "missing_columns" ∧ f.severity = none ∧
      f.msg = "Missing required DwC columns: " ++
        String.intercalate ", " (missingCols df)) := by
  refine ⟨?_, ⟨?_, ?_⟩, ?_⟩
  · unfold test_required_columns
    split <;> simp
  · intro h
    intro c hc
    unfold test_required_columns at h
    by_cases hm : missingCols df = []
    · have : ¬ (decide (c ∉ df.cols) = true) := by
        intro hd
        have := List.filter_eq_nil_iff.mp hm c hc
        exact this hd
      simpa using this
    · rw [if_neg hm] at h
      cases h
  · intro h
    have hm : missingCols df = [] := by
      apply List.filter_eq_nil_iff.mpr
      intro c hc
      simpa using h c hc
    unfold test_required_columns
    rw [if_pos hm]
  · intro f hf
    unfold test_required_columns at hf
    by_cases hm : missingCols df = []
    · rw [if_pos hm] at hf
      cases hf
    · rw [if_neg hm] at hf
      simp only [List.mem_singleton] at hf
      subst hf
      exact ⟨rfl, rfl, rfl⟩

/-- Witness for `c8_schema_check` at a concrete input (a table having only
an eventID column): one finding, naming all nine other missing columns in
one message. -/
theorem c8_schema_check_witness :
    (test_required_columns { cols := ["eventID"], rows := [] }).length ≤ 1 ∧
    ¬ (test_required_columns { cols := ["eventID"], rows := [] } = []) ∧
    (∀ f ∈ test_required_columns { cols := ["eventID"], rows := [] },
      f.code = "missing_columns") := by
  have h := c8_schema_check { cols := ["eventID"], rows := [] }
  refine ⟨h.1, ?_, fun f hf => (h.2.2 f hf).1⟩
  intro he
  have := (h.2.1).1 he "eventDate" (by decide)
  simp at this

/-- C8 counterexample: a table containing every column of the union set
but not `scientificName` (a member of the claimed occurrence set) passes
the schema check with no finding, so the check cannot be comparing
against the per-table-kind occurrence column set. -/
theorem c8_counterexample :
    test_required_columns { cols := required_terms, rows := [] } = [] ∧
    "scientificName" ∈ spec_required_occurrence_terms ∧
    "scientificName" ∉ required_terms := by
  refine ⟨by decide, by decide, by decide⟩

/-! ## Taxonomy lemmas and claims C10, C6, C5 -/

theorem chunkLoop_requests (chunks : List (List Value)) (svc : List Value → ServiceResponse) :
    (chunkLoop chunks svc).2.2 = chunks := by
  induction chunks with
  | nil => rfl
  | cons c rest ih => simp [chunkLoop, ih]

theorem chunkLoop_findings_code (chunks : List (List Value))
    (svc : List Value → ServiceResponse) (f : Finding)
    (hf : f ∈ (chunkLoop chunks svc).1) :
    f.code = "taxon_unaccepted" ∨ f.code = "worms_api_error" ∨
      f.code = "worms_conn_error" := by
  induction chunks with
  | nil => exact absurd hf (by simp [chunkLoop])
  | cons c rest ih =>
    simp only [chunkLoop] at hf
    rcases List.mem_append.mp hf with h | h
    · cases hsvc : svc c with
      | ok results =>
        rw [hsvc] at h
        simp only [processChunk] at h
        rcases List.mem_flatMap.mp h with ⟨p, _, hfp⟩
        rcases p with ⟨name, ms⟩
        cases ms with
        | nil => simp [processPair] at hfp
        | cons m mt =>
          by_cases hstat : m.status ≠ "accepted"
          · simp only [processPair, if_pos hstat] at hfp
            rcases List.mem_singleton.mp hfp with rfl
            exact Or.inl rfl
          · simp [processPair, if_neg hstat] at hfp
      | httpError n =>
        rw [hsvc] at h
        rcases List.mem_singleton.mp h with rfl
        exact Or.inr (Or.inl rfl)
      | connError =>
        rw [hsvc] at h
        rcases List.mem_singleton.mp h with rfl
        exact Or.inr (Or.inr rfl)
    · exact ih h

theorem chunkLoop_unmatched_nil (chunks : List (List Value))
    (svc : List Value → ServiceResponse)
    (h : ∀ c, (svc c).isOk = false) :
    (chunkLoop chunks svc).2.1 = [] := by
  induction chunks with
  | nil => rfl
  | cons c rest ih =>
    simp only [chunkLoop]
    have hc := h c
    cases hsvc : svc c with
    | ok results => rw [hsvc] at hc; simp [ServiceResponse.isOk] at hc
    | httpError n => simp [hsvc, processChunk, ih]
    | connError => simp [hsvc, processChunk, ih]

theorem vsnFindings_eq (df : Table) (svc : List Value → ServiceResponse)
    (hcol : "scientificName" ∈ df.cols) :
    vsnFindings df svc =
      (chunkLoop (chunksOf50 (uniqueNamesOf df)) svc).1 ++
      (if (chunkLoop (chunksOf50 (uniqueNamesOf df)) svc).2.1 = [] then []
       else
         [{ code := "taxon_unmatched", severity := some "WARNING",
            msg := "Taxa not found in WoRMS: " ++ String.intercalate ", "
              ((((chunkLoop (chunksOf50 (uniqueNamesOf df)) svc).2.1.take 10).map
                Value.render)) ++ "...",
            locs := [] }]) := by
  unfold vsnFindings validate_scientific_names
  rw [if_pos hcol]

theorem vsnRequests_eq (df : Table) (svc : List Value → ServiceResponse)
    (hcol : "scientificName" ∈ df.cols) :
    vsnRequests df svc = chunksOf50 (uniqueNamesOf df) := by
  unfold vsnRequests validate_scientific_names
  rw [if_pos hcol]
  exact chunkLoop_requests _ _

/-- C10 (confirmed): whenever at least one queried name ends unmatched,
the taxonomy check emits exactly one unmatched-taxa warning, whose message
lists only the first 10 unmatched names and is always suffixed "...",
regardless of how many names were actually unmatched. -/
theorem c10_unmatched_warning (df : Table) (svc : List Value → ServiceResponse)
    (hcol : "scientificName" ∈ df.cols)
    (hne : unmatchedOf df svc ≠ []) :
    (vsnFindings df svc).filter (fun f => decide (f.code = "taxon_unmatched")) =
      [{ code := "taxon_unmatched", severity := some "WARNING",
         msg := "Taxa not found in WoRMS: " ++
           String.intercalate ", " (((unmatchedOf df svc).take 10).map Value.render)
           ++ "...",
         locs := [] }] := by
  rw [vsnFindings_eq df svc hcol]
  unfold unmatchedOf at hne
  rw [if_neg hne, List.filter_append]
  have h1 : (chunkLoop (chunksOf50 (uniqueNamesOf df)) svc).1.filter
      (fun f => decide (f.code = "taxon_unmatched")) = [] := by
    apply List.filter_eq_nil_iff.mpr
    intro f hf
    rcases chunkLoop_findings_code _ _ f hf with h | h | h <;> simp [h]
  rw [h1]
  simp [unmatchedOf]

/-- A one-row table with the single scientific name "Abc". -/
def dfTaxA : Table :=
  { cols := ["scientificName"], rows := [[("scientificName", Value.str "Abc")]] }

/-- Witness for `c10_unmatched_warning`: a service answering an empty
match list leaves "Abc" unmatched and the single warning lists it. -/
theorem c10_unmatched_warning_witness :
    (vsnFindings dfTaxA (fun _ => ServiceResponse.ok [[]])).filter
      (fun f => decide (f.code = "taxon_unmatched")) =
      [{ code := "taxon_unmatched", severity := some "WARNING",
         msg := "Taxa not found in WoRMS: Abc...", locs := [] }] := by
  have h := c10_unmatched_warning dfTaxA (fun _ => ServiceResponse.ok [[]])
    (by decide) (by decide)
  rw [h]
  decide

/-- C6 (amended): each batch is attempted exactly once — the request trace
is exactly the chunk list, independent of how the service responds, so a
failing batch is never retried (the claimed bound of 3 attempts does not
exist) — and when the service never returns a 200 response, no name is
ever classified as unmatched/not-found (the claimed immediate not-found
classification does not happen either). -/
theorem c6_single_attempt_no_classification (df : Table)
    (svc : List Value → ServiceResponse)
    (hcol : "scientificName" ∈ df.cols) :
    vsnRequests df svc = chunksOf50 (uniqueNamesOf df) ∧
    ((∀ c, (svc c).isOk = false) → unmatchedOf df svc = []) := by
  refine ⟨vsnRequests_eq df svc hcol, fun h => ?_⟩
  exact chunkLoop_unmatched_nil _ _ h

/-- Witness for `c6_single_attempt_no_classification` at a concrete input:
an always-failing service (HTTP 204) still gets exactly one request for
the single batch, and the batch's name is not classified. -/
theorem c6_single_attempt_witness :
    vsnRequests dfTaxA (fun _ => ServiceResponse.httpError 204) =
      chunksOf50 (uniqueNamesOf dfTaxA) ∧
    unmatchedOf dfTaxA (fun _ => ServiceResponse.httpError 204) = [] := by
  have h := c6_single_attempt_no_classification dfTaxA
    (fun _ => ServiceResponse.httpError 204) (by decide)
  exact ⟨h.1, h.2 (fun c => rfl)⟩

/-- C6 counterexample: with a service that always fails (HTTP error),
the claim demands that the single name "Abc" be immediately classified
not-found and that technical failures be retried up to 3 times; in fact
exactly one request is issued and the unmatched/not-found list stays
empty. -/
theorem c6_counterexample :
    uniqueNamesOf dfTaxA = [Value.str "Abc"] ∧
    vsnRequests dfTaxA (fun _ => ServiceResponse.httpError 500) = [[Value.str "Abc"]] ∧
    unmatchedOf dfTaxA (fun _ => ServiceResponse.httpError 500) = [] := by
  refine ⟨by decide, by decide, by decide⟩

/-- C5 (amended): there is no memoization cache — the taxonomy check is a
stateless function, so a second invocation with the same names issues
exactly the same nonempty batch list as the first instead of being served
from a cache. -/
theorem c5_no_memoization (df : Table) (svc : List Value → ServiceResponse)
    (hcol : "scientificName" ∈ df.cols)
    (hne : uniqueNamesOf df ≠ []) :
    (lookupTwiceRequests df svc).2 = (lookupTwiceRequests df svc).1 ∧
    (lookupTwiceRequests df svc).2 ≠ [] := by
  refine ⟨rfl, ?_⟩
  show vsnRequests df svc ≠ []
  rw [vsnRequests_eq df svc hcol]
  cases hn : uniqueNamesOf df with
  | nil => exact absurd hn hne
  | cons a l => simp [chunksOf50, chunksGo]

/-- A one-row table with the single scientific name "Xyz". -/
def dfTaxB : Table :=
  { cols := ["scientificName"], rows := [[("scientificName", Value.str "Xyz")]] }

/-- Witness for `c5_no_memoization` at a concrete input. -/
theorem c5_no_memoization_witness :
    (lookupTwiceRequests dfTaxB (fun _ => ServiceResponse.ok [[]])).2 =
      (lookupTwiceRequests dfTaxB (fun _ => ServiceResponse.ok [[]])).1 ∧
    (lookupTwiceRequests dfTaxB (fun _ => ServiceResponse.ok [[]])).2 ≠ [] :=
  c5_no_memoization dfTaxB (fun _ => ServiceResponse.ok [[]]) (by decide) (by decide)

/-- C5 counterexample: the second invocation of the taxonomy check on the
same one-name table issues one full batch again ([["Xyz"]], not the empty
request list the cache the claim describes would produce). -/
theorem c5_counterexample :
    (lookupTwiceRequests dfTaxB (fun _ => ServiceResponse.ok [[]])).2 =
      [[Value.str "Xyz"]] := by
  decide

/-! ## Counting lemmas for the join row-count claim C3 -/

theorem countP_eq_sum_ite {α : Type} (p : α → Bool) (l : List α) :
    l.countP p = (l.map (fun a => if p a then 1 else 0)).sum := by
  induction l with
  | nil => simp
  | cons a l ih =>
    rw [List.countP_cons, List.map_cons, List.sum_cons, ih]
    omega

theorem sum_map_add_nat {α : Type} (f g : α → Nat) (l : List α) :
    (l.map (fun a => f a + g a)).sum = (l.map f).sum + (l.map g).sum := by
  induction l with
  | nil => simp
  | cons a l ih =>
    simp only [List.map_cons, List.sum_cons, ih]
    omega

theorem sum_countP_exchange {α β : Type} (L : List α) (R : List β) (p : α → β → Bool) :
    (L.map (fun a => R.countP (p a))).sum =
      (R.map (fun b => L.countP (fun a => p a b))).sum := by
  induction L with
  | nil => simp
  | cons a L ih =>
    simp only [List.map_cons, List.sum_cons, ih]
    have h1 : (R.map (fun b => L.countP (fun a => p a b) + if p a b then 1 else 0)).sum =
        (R.map (fun b => L.countP (fun a => p a b))).sum +
        (R.map (fun b => if p a b then 1 else 0)).sum :=
      sum_map_add_nat _ _ R
    have h2 : ∀ b, (a :: L).countP (fun x => p x b) =
        L.countP (fun x => p x b) + if p a b then 1 else 0 := by
      intro b
      rw [List.countP_cons]
    rw [List.map_congr_left (fun b _ => h2 b), h1, countP_eq_sum_ite (p a) R]
    omega

theorem length_mergeRows (L R : List Row) (k : String) :
    (mergeRows L R k).length =
      (R.map (fun r => L.countP (fun l' => decide (keyVal r k = keyVal l' k)))).sum := by
  unfold mergeRows
  rw [List.length_flatMap]
  simp only [Function.comp_def]
  have h : ∀ l' ∈ L, ((R.filter (fun rr => decide (keyVal rr k = keyVal l' k))).map
      (fun rr => l' ++ rr)).length = R.countP (fun rr => decide (keyVal rr k = keyVal l' k)) := by
    intro l' _
    rw [List.length_map, ← List.countP_eq_length_filter]
  rw [List.map_congr_left h]
  exact sum_countP_exchange L R (fun l' r => decide (keyVal r k = keyVal l' k))

theorem countP_keys_eq_one (L : List Row) (k : String) (v : Option Value)
    (hnd : (keysOf L k).Nodup) (hv : v ∈ keysOf L k) :
    L.countP (fun l' => decide (v = keyVal l' k)) = 1 := by
  induction L with
  | nil => cases hv
  | cons a L ih =>
    have hks : keysOf (a :: L) k = keyVal a k :: keysOf L k := rfl
    rw [hks] at hnd hv
    rcases List.nodup_cons.mp hnd with ⟨hna, hndL⟩
    rw [List.countP_cons]
    rcases List.mem_cons.mp hv with hva | hvL
    · have hz : L.countP (fun l' => decide (v = keyVal l' k)) = 0 := by
        apply List.countP_eq_zero.mpr
        intro l' hl'
        simp only [decide_eq_true_eq]
        intro he
        exact hna (hva ▸ he ▸ List.mem_map_of_mem (fun r => keyVal r k) hl')
      rw [hz]
      simp [hva]
    · have hvne : ¬ v = keyVal a k := by
        intro he
        exact hna (he ▸ hvL)
      rw [ih hndL hvL]
      simp [hvne]

theorem keyVal_append_left_none (l r : Row) (c : String) (h : keyVal l c = none) :
    keyVal (l ++ r) c = keyVal r c := by
  induction l with
  | nil => rfl
  | cons a l ih =>
    rcases a with ⟨s, v⟩
    rw [keyVal] at h
    by_cases hs : s = c
    · rw [if_pos hs] at h
      cases h
    · rw [List.cons_append, keyVal, if_neg hs]
      exact ih (by rw [if_neg hs] at h; exact h)

theorem countP_flatMap_eq {α β : Type} (l : List α) (f : α → List β) (p : β → Bool) :
    (l.flatMap f).countP p = (l.map (fun a => (f a).countP p)).sum := by
  induction l with
  | nil => simp
  | cons a l ih => simp [List.flatMap_cons, List.countP_append, ih]

theorem countP_mergeRows_col (L R : List Row) (k c : String) (w : Option Value)
    (hnone : ∀ l' ∈ L, keyVal l' c = none)
    (hone : ∀ r ∈ R, L.countP (fun l' => decide (keyVal r k = keyVal l' k)) = 1) :
    (mergeRows L R k).countP (fun x => decide (keyVal x c = w)) =
      R.countP (fun r => decide (keyVal r c = w)) := by
  unfold mergeRows
  rw [countP_flatMap_eq]
  have h1 : ∀ l' ∈ L, ((R.filter (fun rr => decide (keyVal rr k = keyVal l' k))).map
      (fun rr => l' ++ rr)).countP (fun x => decide (keyVal x c = w)) =
      R.countP (fun r => decide (keyVal r c = w) && decide (keyVal r k = keyVal l' k)) := by
    intro l' hl'
    rw [List.countP_map, List.countP_filter]
    apply List.countP_congr
    intro r _
    simp only [Function.comp]
    rw [keyVal_append_left_none l' r c (hnone l' hl')]
  rw [List.map_congr_left h1]
  rw [sum_countP_exchange L R
    (fun l' r => decide (keyVal r c = w) && decide (keyVal r k = keyVal l' k))]
  rw [countP_eq_sum_ite]
  apply congrArg
  apply List.map_congr_left
  intro r hr
  by_cases hw : decide (keyVal r c = w) = true
  · rw [if_pos hw]
    have := hone r hr
    rw [← this]
    apply List.countP_congr
    intro l' _
    simp [hw]
  · rw [if_neg hw]
    apply List.countP_eq_zero.mpr
    intro l' _
    simp only [Bool.and_eq_true, decide_eq_true_eq]
    intro hcon
    exact hw (by simp [hcon.1])

theorem countP_le_one_of_nodup {α : Type} [DecidableEq α] (l : List α)
    (h : l.Nodup) (v : α) : l.countP (fun x => decide (x = v)) ≤ 1 := by
  induction l with
  | nil => simp
  | cons b l ih =>
    rw [List.countP_cons]
    rcases List.nodup_cons.mp h with ⟨hb, hl⟩
    by_cases hbv : b = v
    · subst hbv
      have hz : l.countP (fun x => decide (x = b)) = 0 := by
        apply List.countP_eq_zero.mpr
        intro x hx
        simp only [decide_eq_true_eq]
        intro hxb
        exact hb (hxb ▸ hx)
      simp [hz]
    · simp only [hbv, decide_eq_true_eq, if_neg hbv]
      simpa using ih hl

theorem nodup_of_countP_le_one {α : Type} [DecidableEq α] (l : List α)
    (h : ∀ v, l.countP (fun x => decide (x = v)) ≤ 1) : l.Nodup := by
  induction l with
  | nil => simp
  | cons a l ih =>
    rw [List.nodup_cons]
    constructor
    · intro hmem
      have ha := h a
      rw [List.countP_cons] at ha
      have hpos : 0 < l.countP (fun x => decide (x = a)) :=
        List.countP_pos_iff.mpr ⟨a, hmem, by simp⟩
      have ha2 : l.countP (fun x => decide (x = a)) + 1 ≤ 1 := by
        simpa using ha
      omega
    · apply ih
      intro v
      have hv := h v
      rw [List.countP_cons] at hv
      omega

theorem countP_keysOf (M : List Row) (c : String) (v : Option Value) :
    (keysOf M c).countP (fun x => decide (x = v)) =
      M.countP (fun r => decide (keyVal r c = v)) := by
  unfold keysOf
  rw [List.countP_map]
  rfl

theorem mem_keysOf_iff (M : List Row) (c : String) (v : Option Value) :
    v ∈ keysOf M c ↔ 0 < M.countP (fun r => decide (keyVal r c = v)) := by
  constructor
  · intro h
    obtain ⟨r, hr, hrv⟩ := List.mem_map.mp h
    exact List.countP_pos_iff.mpr ⟨r, hr, by simp [hrv]⟩
  · intro h
    obtain ⟨r, hr, hp⟩ := List.countP_pos_iff.mp h
    simp only [decide_eq_true_eq] at hp
    exact hp ▸ List.mem_map_of_mem (fun r => keyVal r c) hr

theorem nodup_keysOf_mergeRows (L R : List Row) (k c : String)
    (hnone : ∀ l' ∈ L, keyVal l' c = none)
    (hone : ∀ r ∈ R, L.countP (fun l' => decide (keyVal r k = keyVal l' k)) = 1)
    (hnd : (keysOf R c).Nodup) :
    (keysOf (mergeRows L R k) c).Nodup := by
  apply nodup_of_countP_le_one
  intro v
  rw [countP_keysOf, countP_mergeRows_col L R k c v hnone hone, ← countP_keysOf]
  exact countP_le_one_of_nodup _ hnd v

theorem sum_map_one {α : Type} (l : List α) : (l.map (fun _ => 1)).sum = l.length := by
  induction l with
  | nil => rfl
  | cons a l ih =>
    simp only [List.map_cons, List.sum_cons, List.length_cons, ih]
    omega

/-- C3 (confirmed): when the three tables' key relationships are fully
consistent — unique eventIDs in `event`, unique occurrenceIDs in
`occurrence`, every occurrence referencing an existing event, every emof
row referencing an existing occurrence, and the event table carrying no
occurrenceID column of its own — the two-join pipeline succeeds and the
linked dataset has exactly as many rows as the emof table. -/
theorem c3_link_row_count (ev oc em : Table)
    (h1 : (keysOf ev.rows "eventID").Nodup)
    (h2 : (keysOf oc.rows "occurrenceID").Nodup)
    (h3 : ∀ o ∈ oc.rows, keyVal o "eventID" ∈ keysOf ev.rows "eventID")
    (h4 : ∀ m ∈ em.rows, keyVal m "occurrenceID" ∈ keysOf oc.rows "occurrenceID")
    (h5 : ∀ e ∈ ev.rows, keyVal e "occurrenceID" = none) :
    ∃ t, runLink ev oc em = some t ∧ t.rows.length = em.rows.length := by
  have hone1 : ∀ o ∈ oc.rows, ev.rows.countP
      (fun e => decide (keyVal o "eventID" = keyVal e "eventID")) = 1 :=
    fun o ho => countP_keys_eq_one ev.rows "eventID" _ h1 (h3 o ho)
  have hndEO : (keysOf (mergeRows ev.rows oc.rows "eventID") "occurrenceID").Nodup :=
    nodup_keysOf_mergeRows _ _ _ _ h5 hone1 h2
  have hmt1 : test_merge_tables ev oc "eventID" = (some (mergeTables ev oc "eventID"), []) := by
    unfold test_merge_tables
    rw [if_pos h1]
  have hndEO2 : (keysOf (mergeTables ev oc "eventID").rows "occurrenceID").Nodup := hndEO
  have hmt2 : test_merge_tables (mergeTables ev oc "eventID") em "occurrenceID" =
      (some (mergeTables (mergeTables ev oc "eventID") em "occurrenceID"), []) := by
    unfold test_merge_tables
    rw [if_pos hndEO2]
  refine ⟨mergeTables (mergeTables ev oc "eventID") em "occurrenceID", ?_, ?_⟩
  · simp only [runLink, hmt1, hmt2]
  · show (mergeRows (mergeRows ev.rows oc.rows "eventID") em.rows "occurrenceID").length =
      em.rows.length
    rw [length_mergeRows]
    have hone2 : ∀ m ∈ em.rows, (mergeRows ev.rows oc.rows "eventID").countP
        (fun l' => decide (keyVal m "occurrenceID" = keyVal l' "occurrenceID")) = 1 := by
      intro m hm
      apply countP_keys_eq_one _ "occurrenceID" _ hndEO
      rw [mem_keysOf_iff]
      rw [countP_mergeRows_col ev.rows oc.rows "eventID" "occurrenceID" _ h5 hone1]
      rw [← mem_keysOf_iff]
      exact h4 m hm
    rw [List.map_congr_left hone2]
    exact sum_map_one em.rows

/-- Scenario-A event table: two events. -/
def evA : Table :=
  { cols := ["eventID", "eventDate"],
    rows := [[("eventID", Value.str "e1"), ("eventDate", Value.str "2020-01-01")],
             [("eventID", Value.str "e2"), ("eventDate", Value.str "2020-01-02")]] }

/-- Scenario-A occurrence table: three occurrences over the two events. -/
def ocA : Table :=
  { cols := ["eventID", "occurrenceID"],
    rows := [[("occurrenceID", Value.str "o1"), ("eventID", Value.str "e1")],
             [("occurrenceID", Value.str "o2"), ("eventID", Value.str "e1")],
             [("occurrenceID", Value.str "o3"), ("eventID", Value.str "e2")]] }

/-- Scenario-A emof table: five measurements over the three occurrences. -/
def emA : Table :=
  { cols := ["occurrenceID", "measurementValue"],
    rows := [[("occurrenceID", Value.str "o1"), ("measurementValue", Value.num 1)],
             [("occurrenceID", Value.str "o1"), ("measurementValue", Value.num 2)],
             [("occurrenceID", Value.str "o2"), ("measurementValue", Value.num 3)],
             [("occurrenceID", Value.str "o3"), ("measurementValue", Value.num 4)],
             [("occurrenceID", Value.str "o3"), ("measurementValue", Value.num 5)]] }

/-- Witness for `c3_link_row_count` at the end-to-end scenario of the
spec: 2 events, 3 occurrences, 5 emof rows give a 5-row linked dataset. -/
theorem c3_link_row_count_witness :
    ∃ t, runLink evA ocA emA = some t ∧ t.rows.length = emA.rows.length :=
  c3_link_row_count evA ocA emA (by decide) (by decide) (by decide) (by decide) (by decide)

/-! ## Script-level lemmas and claims C9, C1, C4 -/

theorem checkCoordColumn_error (df : Table) (c : String) (b : Rat) (code msg : String)
    (e : PyErr) (h : checkCoordColumn df c b code msg = .error e) : e = .typeError := by
  unfold checkCoordColumn at h
  split at h
  · split at h
    · injection h with h2
      exact h2.symm
    · split at h <;> cases h
  · cases h

theorem validate_coordinates_error (df : Table) (e : PyErr)
    (h : validate_coordinates df = .error e) : e = .typeError := by
  unfold validate_coordinates at h
  cases hc1 : checkCoordColumn df "decimalLatitude" 90
      "invalid_latitude" "Invalid decimalLatitude values detected." with
  | error e1 =>
    rw [hc1] at h
    injection h with h2
    exact h2 ▸ checkCoordColumn_error df "decimalLatitude" 90 _ _ e1 hc1
  | ok f1 =>
    rw [hc1] at h
    cases hc2 : checkCoordColumn df "decimalLongitude" 180
        "invalid_longitude" "Invalid decimalLongitude values detected." with
    | error e2 =>
      rw [hc2] at h
      injection h with h2
      exact h2 ▸ checkCoordColumn_error df "decimalLongitude" 180 _ _ e2 hc2
    | ok f2 =>
      rw [hc2] at h
      cases h

theorem validate_scientific_names_error (df : Table) (svc : List Value → ServiceResponse)
    (e : PyErr) (fs : List Finding)
    (h : validate_scientific_names df svc = .error (e, fs)) : e = .keyError := by
  unfold validate_scientific_names at h
  by_cases hc : "scientificName" ∈ df.cols
  · rw [if_pos hc] at h
    cases h
  · rw [if_neg hc] at h
    injection h with h2
    exact (congrArg Prod.fst h2).symm

theorem runChecks_error (df : Table) (svc : List Value → ServiceResponse)
    (e : PyErr) (fs : List Finding)
    (h : runChecks df svc = .error (e, fs)) : e = .typeError ∨ e = .keyError := by
  unfold runChecks at h
  cases hvc : validate_coordinates df with
  | error e1 =>
    rw [hvc] at h
    injection h with h2
    have h3 : e = e1 := by simpa using congrArg Prod.fst h2.symm
    exact Or.inl (h3.trans (validate_coordinates_error df e1 hvc))
  | ok f3 =>
    rw [hvc] at h
    cases hvs : validate_scientific_names df svc with
    | error p =>
      rcases p with ⟨e2, f5⟩
      rw [hvs] at h
      injection h with h2
      have h3 : e = e2 := by simpa using congrArg Prod.fst h2.symm
      exact Or.inr (h3.trans (validate_scientific_names_error df svc e2 f5 hvs))
    | ok p =>
      rw [hvs] at h
      cases h

/-- C9 (confirmed): with the `eventID` columns present (otherwise the
column accesses raise `KeyError` first), the script dies on an uncaught
`AssertionError` — with nothing printed, hence before any join — exactly
when the module-level asserts fail: eventIDs not unique in the event
table, or the eventID value sets of the event and occurrence tables not
equal. In particular an event row referenced by no occurrence row aborts
the run with an exception instead of producing a finding. -/
theorem c9_module_asserts (ev oc em : Table) (svc : List Value → ServiceResponse)
    (h1 : "eventID" ∈ ev.cols) (h2 : "eventID" ∈ oc.cols) :
    script ev oc em svc = .crashed .assertionError [] ↔
      ¬ (assertEventIDsUnique ev ∧ assertEventIDSetsEqual ev oc) := by
  constructor
  · intro h hA
    rcases hA with ⟨ha1, ha2⟩
    unfold script at h
    rw [if_neg (fun hc => hc h1), if_neg (not_not_intro ha1), if_neg (fun hc => hc h2),
        if_neg (not_not_intro ha2)] at h
    cases hm1 : test_merge_tables ev oc "eventID" with
    | mk fst m1 =>
      cases fst with
      | none =>
        simp only [hm1] at h
        injection h with he
        cases he
      | some eo =>
        simp only [hm1] at h
        cases hm2 : test_merge_tables eo em "occurrenceID" with
        | mk fst2 m2 =>
          cases fst2 with
          | none =>
            simp only [hm2] at h
            injection h with he
            cases he
          | some deo =>
            simp only [hm2] at h
            cases hrc : runChecks deo svc with
            | error p =>
              rcases p with ⟨e, fs⟩
              simp only [hrc] at h
              injection h with he
              rcases runChecks_error deo svc e fs hrc with ht | hk
              · rw [ht] at he
                cases he
              · rw [hk] at he
                cases he
            | ok fs =>
              simp only [hrc] at h
              cases h
  · intro hna
    unfold script
    rw [if_neg (fun hc => hc h1)]
    by_cases ha1 : assertEventIDsUnique ev
    · rw [if_neg (not_not_intro ha1), if_neg (fun hc => hc h2)]
      have ha2 : ¬ assertEventIDSetsEqual ev oc := fun ha2 => hna ⟨ha1, ha2⟩
      rw [if_pos ha2]
    · rw [if_pos ha1]

/-- Event table with an event ("e2") referenced by no occurrence row. -/
def evC9 : Table :=
  { cols := ["eventID"],
    rows := [[("eventID", Value.str "e1")], [("eventID", Value.str "e2")]] }

/-- Occurrence table referencing only "e1". -/
def ocC9 : Table :=
  { cols := ["eventID", "occurrenceID"],
    rows := [[("eventID", Value.str "e1"), ("occurrenceID", Value.str "o1")]] }

/-- A minimal emof table. -/
def emC9 : Table :=
  { cols := ["occurrenceID"], rows := [[("occurrenceID", Value.str "o1")]] }

/-- Witness for `c9_module_asserts`: the unreferenced event "e2" makes the
set-equality assert fail and the whole run dies on `AssertionError` with
nothing printed. -/
theorem c9_module_asserts_witness :
    script evC9 ocC9 emC9 (fun _ => ServiceResponse.ok [[]]) =
      .crashed .assertionError [] :=
  (c9_module_asserts evC9 ocC9 emC9 (fun _ => ServiceResponse.ok [[]])
    (by decide) (by decide)).mpr (by decide)

/-- C1 (amended): duplicate eventIDs in the event table never reach the
join — the module-level assert kills the whole run with an uncaught
`AssertionError` before anything is printed. The merge helper itself,
when invoked with duplicate left-side keys, does return `None`, but the
message it prints is the pandas `MergeError` text, which names neither a
`cardinality_violation` code nor the duplicated key values. -/
theorem c1_duplicate_event_keys (ev oc em df other : Table)
    (svc : List Value → ServiceResponse) (k : String)
    (h1 : "eventID" ∈ ev.cols)
    (hdup : ¬ assertEventIDsUnique ev) :
    script ev oc em svc = .crashed .assertionError [] ∧
    (¬ (keysOf df.rows k).Nodup →
      test_merge_tables df other k = (none, [mergeFailFinding])) := by
  constructor
  · unfold script
    rw [if_neg (fun hc => hc h1), if_pos hdup]
  · intro hd
    unfold test_merge_tables
    rw [if_neg hd]

/-- Event table with a duplicated eventID value. -/
def evDup : Table :=
  { cols := ["eventID"],
    rows := [[("eventID", Value.str "e1")], [("eventID", Value.str "e1")]] }

/-- Witness for `c1_duplicate_event_keys` at a concrete input. -/
theorem c1_duplicate_event_keys_witness :
    script evDup ocA emA (fun _ => ServiceResponse.ok [[]]) =
      .crashed .assertionError [] ∧
    test_merge_tables evDup ocA "eventID" = (none, [mergeFailFinding]) := by
  have h := c1_duplicate_event_keys evDup ocA emA evDup ocA
    (fun _ => ServiceResponse.ok [[]]) "eventID" (by decide) (by decide)
  exact ⟨h.1, h.2 (by decide)⟩

/-- C1 counterexample: on an event table with a duplicate eventID the
claim demands that `link` return `None` with a cardinality finding and
that no error be raised; the program instead raises an uncaught
`AssertionError` having printed no finding at all. -/
theorem c1_counterexample :
    script evDup ocC9 emC9 (fun _ => ServiceResponse.ok [[]]) =
      .crashed .assertionError [] ∧
    (script evDup ocC9 emC9 (fun _ => ServiceResponse.ok [[]])).findings = [] := by
  refine ⟨by decide, by decide⟩

/-- C4 (amended): when the asserts pass but the second join fails (the
first cannot fail once the uniqueness assert has passed), the semantic
and taxonomy checks are indeed never run, but no summary finding is
emitted either: the merged variable is `None` and the first check dies
with an uncaught `AttributeError`, the only output being the pandas
merge-failure message. -/
theorem c4_linkage_failure_crash (ev oc em : Table)
    (svc : List Value → ServiceResponse) (eo : Table)
    (h1 : "eventID" ∈ ev.cols) (h2 : "eventID" ∈ oc.cols)
    (ha1 : assertEventIDsUnique ev) (ha2 : assertEventIDSetsEqual ev oc)
    (hm1 : test_merge_tables ev oc "eventID" = (some eo, []))
    (hm2 : (test_merge_tables eo em "occurrenceID").1 = none) :
    script ev oc em svc = .crashed .attributeError [mergeFailFinding] := by
  unfold script
  rw [if_neg (fun hc => hc h1), if_neg (not_not_intro ha1), if_neg (fun hc => hc h2),
      if_neg (not_not_intro ha2)]
  have hm2' : test_merge_tables eo em "occurrenceID" = (none, [mergeFailFinding]) := by
    unfold test_merge_tables at hm2 ⊢
    by_cases hd : (keysOf eo.rows "occurrenceID").Nodup
    · rw [if_pos hd] at hm2
      simp at hm2
    · rw [if_neg hd]
  simp only [hm1, hm2']
  rfl

/-- One event, two occurrences sharing one occurrenceID, one emof row:
the asserts pass, the first join succeeds, the second join fails. -/
def evC4 : Table :=
  { cols := ["eventID"], rows := [[("eventID", Value.str "e1")]] }

/-- Occurrence table with a duplicated occurrenceID (both rows of event
"e1"). -/
def ocC4 : Table :=
  { cols := ["eventID", "occurrenceID"],
    rows := [[("eventID", Value.str "e1"), ("occurrenceID", Value.str "o1")],
             [("eventID", Value.str "e1"), ("occurrenceID", Value.str "o1")]] }

/-- A minimal emof table for the C4 inputs. -/
def emC4 : Table :=
  { cols := ["occurrenceID"], rows := [[("occurrenceID", Value.str "o1")]] }

/-- Witness for `c4_linkage_failure_crash` at a concrete input. -/
theorem c4_linkage_failure_crash_witness :
    script evC4 ocC4 emC4 (fun _ => ServiceResponse.ok [[]]) =
      .crashed .attributeError [mergeFailFinding] :=
  c4_linkage_failure_crash evC4 ocC4 emC4 (fun _ => ServiceResponse.ok [[]])
    (mergeTables evC4 ocC4 "eventID") (by decide) (by decide) (by decide) (by decide)
    (by decide) (by decide)

/-- A second concrete linkage-failure input (distinct table contents) for
refuting the claim directly. -/
def evC4b : Table :=
  { cols := ["eventID"], rows := [[("eventID", Value.str "E")]] }

/-- Occurrence table with a duplicated occurrenceID "O". -/
def ocC4b : Table :=
  { cols := ["eventID", "occurrenceID"],
    rows := [[("eventID", Value.str "E"), ("occurrenceID", Value.str "O")],
             [("eventID", Value.str "E"), ("occurrenceID", Value.str "O")]] }

/-- A minimal emof table for the second C4 input. -/
def emC4b : Table :=
  { cols := ["occurrenceID"], rows := [[("occurrenceID", Value.str "O")]] }

/-- C4 counterexample: on an input whose linkage fails, the claim demands
a summary finding explaining the skip; the run instead dies with an
uncaught `AttributeError` and the only output ever printed is the pandas
merge-failure message — no summary finding exists. -/
theorem c4_counterexample :
    script evC4b ocC4b emC4b (fun _ => ServiceResponse.ok [[]]) =
      .crashed .attributeError [mergeFailFinding] ∧
    ∀ f ∈ (script evC4b ocC4b emC4b (fun _ => ServiceResponse.ok [[]])).findings,
      f.code = "merge_error" := by
  refine ⟨by decide, by decide⟩
